import Mathlib

/-!
Shallow embedding of the pybreatheaudio serial driver
(src/pybreatheaudio/__init__.py) for a multi-zone audio amplifier.

Strings are modelled as lists of characters (ASCII model of the Python
regexes: the character class backslash-d is modelled as an ASCII digit and
backslash-w as an ASCII alphanumeric or underscore).  Machine reals
produced by Python float division are modelled as exact rationals; the
rounding error of IEEE doubles on the magnitudes occurring here (a few
units in the 10^-14 place, against decision boundaries at least 0.02 away)
never changes any comparison or truncation performed by the code.
Timeout of the byte stream is modelled as exhaustion of the finite list of
bytes (respectively byte chunks) the device delivers.
-/

/-- Exceptions the embedded Python code can raise: ValueError from int()
on a non-numeric string, AttributeError from reading a missing attribute,
NameError from referencing an undefined global. -/
inductive PyError where
  | valueError : PyError
  | attributeError : PyError
  | nameError : PyError
  deriving DecidableEq, Repr

deriving instance DecidableEq for Except

/-- ZoneStatus (lines 23-37): the constructor stores exactly the five
attributes zone, volume, power, mute, source; the treble, bass and balance
assignments are commented out in the source (lines 39-45).  The volume is
a Python number: an int (0) on the off and mute paths and a float
(native / 78 * 100) on the numeric path, hence modelled as a rational. -/
structure ZoneStatus where
  zone : ℕ
  volume : ℚ
  power : Bool
  mute : Bool
  source : ℕ
  deriving DecidableEq, Repr

/-- MAX_VOLUME = 78 (line 21): the device native volume range is 0..78. -/
def MAX_VOLUME : ℕ := 78

/-- ASCII model of the regex class backslash-d: a decimal digit. -/
def isDigitChar (c : Char) : Bool := 48 ≤ c.toNat ∧ c.toNat ≤ 57

/-- ASCII model of the regex class backslash-w: digit, letter or underscore. -/
def isWordChar (c : Char) : Bool :=
  isDigitChar c ∨ (65 ≤ c.toNat ∧ c.toNat ≤ 90) ∨ (97 ≤ c.toNat ∧ c.toNat ≤ 122) ∨ c.toNat = 95

/-- Python int() applied to a one-character digit group. -/
def digitVal (c : Char) : ℕ := c.toNat - 48

/-- Attempt to match ZONE_PATTERN_OFF (line 11), the pattern
hash Z 0 (digit) P W R O F F, at the head of the list; returns the
captured zone digit. -/
def matchOffAt : List Char → Option Char
  | '#' :: 'Z' :: '0' :: d :: 'P' :: 'W' :: 'R' :: 'O' :: 'F' :: 'F' :: _ =>
      if isDigitChar d then some d else none
  | _ => none

/-- re.search for ZONE_PATTERN_OFF: try every start position, left to right. -/
def searchOff : List Char → Option Char
  | [] => none
  | c :: rest =>
      match matchOffAt (c :: rest) with
      | some d => some d
      | none => searchOff rest

/-- Attempt to match ZONE_PATTERN_ON (line 12), the pattern
hash Z 0 (digit) P W R O N comma S R C (digit) comma G R P (digit) comma
V O L dash (word)(word) comma P O F F, at the head of the list; returns
the captured groups (zone, source, group, the two volume-token
characters). -/
def matchOnAt : List Char → Option (Char × Char × Char × Char × Char)
  | '#' :: 'Z' :: '0' :: z :: 'P' :: 'W' :: 'R' :: 'O' :: 'N' :: ',' :: 'S' :: 'R' :: 'C' ::
      s :: ',' :: 'G' :: 'R' :: 'P' :: g :: ',' :: 'V' :: 'O' :: 'L' :: '-' ::
      w1 :: w2 :: ',' :: 'P' :: 'O' :: 'F' :: 'F' :: _ =>
      if isDigitChar z ∧ isDigitChar s ∧ isDigitChar g ∧ isWordChar w1 ∧ isWordChar w2 then
        some (z, s, g, w1, w2)
      else none
  | _ => none

/-- re.search for ZONE_PATTERN_ON: try every start position, left to right. -/
def searchOn : List Char → Option (Char × Char × Char × Char × Char)
  | [] => none
  | c :: rest =>
      match matchOnAt (c :: rest) with
      | some gs => some gs
      | none => searchOn rest

/-- Line 76: int(groups[3]) / MAX_VOLUME * 100, rescaling a native volume
to a percentage (Python float division, modelled exactly). -/
def decode_volume_pct (native : ℕ) : ℚ := (native : ℚ) / (MAX_VOLUME : ℕ) * 100

/-- ZoneStatus.from_string (lines 47-82).  An empty string is falsy and
yields None; then the off pattern is searched, then the on pattern; a
volume token equal to MT or XM is the mute sentinel; any other token is
fed to int(), which succeeds exactly on two decimal digits (ASCII model)
and raises ValueError otherwise. -/
def from_string (s : List Char) : Except PyError (Option ZoneStatus) :=
  if s = [] then .ok none
  else
    match searchOff s with
    | some z => .ok (some ⟨digitVal z, 0, false, false, 1⟩)
    | none =>
      match searchOn s with
      | some (z, src, _g, t1, t2) =>
          if (t1 = 'M' ∧ t2 = 'T') ∨ (t1 = 'X' ∧ t2 = 'M') then
            .ok (some ⟨digitVal z, 0, true, true, digitVal src⟩)
          else if isDigitChar t1 ∧ isDigitChar t2 then
            .ok (some ⟨digitVal z, decode_volume_pct (10 * digitVal t1 + digitVal t2),
                  true, false, digitVal src⟩)
          else .error .valueError
      | none => .ok none

/-- Zero-padded two-digit decimal, the Python format spec 02 (values below
10 get a leading zero, larger values print in full). -/
def pad2 (n : ℕ) : String := if n < 10 then "0" ++ toString n else toString n

/-- The native volume computed by _format_set_volume (lines 176-177):
volume_percentage = volume / 100, then
int(max(0, min(MAX_VOLUME * volume_percentage, MAX_VOLUME))).
Python int() truncates toward zero; the clamped value is nonnegative, so
this is the floor. -/
def encode_native (volume : ℚ) : ℕ :=
  (⌊max 0 (min (((MAX_VOLUME : ℕ) : ℚ) * (volume / 100)) ((MAX_VOLUME : ℕ) : ℚ))⌋).toNat

/-- _format_set_volume (lines 175-178). -/
def _format_set_volume (zone : ℕ) (volume : ℚ) : String :=
  "*Z0" ++ toString zone ++ "VOL" ++ pad2 (encode_native volume) ++ "\r"

/-- _format_set_power (lines 167-168). -/
def _format_set_power (zone : ℕ) (power : Bool) : String :=
  "*Z0" ++ toString zone ++ (if power then "ON" else "OFF") ++ "\r"

/-- _format_set_mute (lines 171-172). -/
def _format_set_mute (zone : ℕ) (mute : Bool) : String :=
  "*Z0" ++ toString zone ++ (if mute then "MTON" else "MTOFF") ++ "\r"

/-- _format_set_source (lines 196-198): the source id is clamped to 0..6. -/
def _format_set_source (zone : ℕ) (source : ℤ) : String :=
  "*Z0" ++ toString zone ++ "SRC" ++ toString (max 0 (min source 6)).toNat ++ "\r"

/-- BreatheAudioSync.restore_zone (lines 287-295): it sends the power,
mute and volume frames, then evaluates status.treble as an argument of
set_treble; ZoneStatus defines no attribute treble (the assignments on
lines 39-45 are commented out), so AttributeError is raised there and the
source frame is never sent.  The result pairs the frames actually written
with the exception raised. -/
def restore_zone (status : ZoneStatus) : List String × Option PyError :=
  ([_format_set_power status.zone status.power,
    _format_set_mute status.zone status.mute,
    _format_set_volume status.zone status.volume],
   some .attributeError)

/-- BreatheAudioAsync.restore_zone (lines 363-372): the same three sends;
the fourth statement evaluates the global name _format_set_treble, which
is commented out in the source (lines 181-183), so NameError is raised
before the volume of the treble argument is even read, and set_source is
never reached. -/
def restore_zone_async (status : ZoneStatus) : List String × Option PyError :=
  ([_format_set_power status.zone status.power,
    _format_set_mute status.zone status.mute,
    _format_set_volume status.zone status.volume],
   some .nameError)

/-- The loop exit test of both receive loops (lines 249 and 405):
len(result) > skip and result[-LEN_EOL:] == EOL, with EOL a single
carriage-return byte (13). -/
def stops (skip : ℕ) (buf : List ℕ) : Prop :=
  skip < buf.length ∧ buf.getLast? = some 13

instance (skip : ℕ) (buf : List ℕ) : Decidable (stops skip buf) :=
  inferInstanceAs (Decidable (_ ∧ _))

/-- Receive loop of BreatheAudioSync._process_request (lines 242-253):
bytes are read one at a time and accumulated; a read returning nothing
(the 2-second port timeout) raises serial.SerialTimeoutException whose
message carries the bytes accumulated so far, modelled by the error
payload.  The device input is the list of bytes still to arrive;
exhaustion models the timeout. -/
def _process_request_recv (skip : ℕ) (buf : List ℕ) : List ℕ → Except (List ℕ) (List ℕ)
  | [] => .error buf
  | c :: rest =>
      if stops skip (buf ++ [c]) then .ok (buf ++ [c])
      else _process_request_recv skip (buf ++ [c]) rest

/-- Receive loop of BreatheAudioProtocol.send (lines 402-411): chunks are
drained from the queue and accumulated; when asyncio.wait_for times out
the partial bytes are only logged and the bare asyncio.TimeoutError is
re-raised, modelled by an error of payload-free type Unit.  The device
input is the list of chunks still to arrive; exhaustion models the
timeout. -/
def protocol_send_recv (skip : ℕ) (buf : List ℕ) : List (List ℕ) → Except Unit (List ℕ)
  | [] => .error ()
  | ch :: rest =>
      if stops skip (buf ++ ch) then .ok (buf ++ ch)
      else protocol_send_recv skip (buf ++ ch) rest

/-- Volume frame as the spec sentence words it: native =
round(clamp(pct, 0, 100) / 100 * 78), written with the rounding function
of Mathlib (round half up; Python rounds half to even, but the two agree
away from ties and in particular at every input used below). -/
def spec_volume_native (pct : ℤ) : ℤ :=
  round (((max 0 (min pct 100) : ℤ) : ℚ) / 100 * 78)

/-- Volume frame as the spec sentence words it (claim C2). -/
def spec_volume_frame (zone : ℕ) (pct : ℤ) : String :=
  "*Z0" ++ toString zone ++ "VOL" ++ pad2 (spec_volume_native pct).toNat ++ "\r"

/-! Helper lemmas: evaluation equations for from_string, arithmetic
characterization of the volume encoder, and timeout lemmas for the two
receive loops. -/

theorem searchOff_nil : searchOff [] = none := rfl

theorem searchOn_nil : searchOn [] = none := rfl

theorem fs_off (s : List Char) (z : Char) (h : searchOff s = some z) :
    from_string s = .ok (some ⟨digitVal z, 0, false, false, 1⟩) := by
  have hne : s ≠ [] := by
    intro he
    rw [he, searchOff_nil] at h
    exact Option.noConfusion h
  unfold from_string
  rw [if_neg hne, h]

theorem fs_on_mute (s : List Char) (z src g t1 t2 : Char)
    (hoff : searchOff s = none)
    (hon : searchOn s = some (z, src, g, t1, t2))
    (hmt : (t1 = 'M' ∧ t2 = 'T') ∨ (t1 = 'X' ∧ t2 = 'M')) :
    from_string s = .ok (some ⟨digitVal z, 0, true, true, digitVal src⟩) := by
  have hne : s ≠ [] := by
    intro he
    rw [he, searchOn_nil] at hon
    exact Option.noConfusion hon
  unfold from_string
  rw [if_neg hne, hoff, hon]
  simp only [if_pos hmt]

theorem fs_on_num (s : List Char) (z src g t1 t2 : Char)
    (hoff : searchOff s = none)
    (hon : searchOn s = some (z, src, g, t1, t2))
    (hmt : ¬ ((t1 = 'M' ∧ t2 = 'T') ∨ (t1 = 'X' ∧ t2 = 'M')))
    (hdig : isDigitChar t1 = true ∧ isDigitChar t2 = true) :
    from_string s = .ok (some ⟨digitVal z, decode_volume_pct (10 * digitVal t1 + digitVal t2),
      true, false, digitVal src⟩) := by
  have hne : s ≠ [] := by
    intro he
    rw [he, searchOn_nil] at hon
    exact Option.noConfusion hon
  unfold from_string
  rw [if_neg hne, hoff, hon]
  simp only [if_neg hmt]
  simp only [if_pos hdig]

theorem fs_on_bad (s : List Char) (z src g t1 t2 : Char)
    (hoff : searchOff s = none)
    (hon : searchOn s = some (z, src, g, t1, t2))
    (hmt : ¬ ((t1 = 'M' ∧ t2 = 'T') ∨ (t1 = 'X' ∧ t2 = 'M')))
    (hdig : ¬ (isDigitChar t1 = true ∧ isDigitChar t2 = true)) :
    from_string s = .error .valueError := by
  have hne : s ≠ [] := by
    intro he
    rw [he, searchOn_nil] at hon
    exact Option.noConfusion hon
  unfold from_string
  rw [if_neg hne, hoff, hon]
  simp only [if_neg hmt]
  simp only [if_neg hdig]

theorem fs_none (s : List Char)
    (hoff : searchOff s = none) (hon : searchOn s = none) :
    from_string s = .ok none := by
  by_cases hs : s = []
  · unfold from_string
    rw [if_pos hs]
  · unfold from_string
    rw [if_neg hs, hoff, hon]

theorem digitVal_le_nine (c : Char) (h : isDigitChar c = true) : digitVal c ≤ 9 := by
  simp only [isDigitChar, decide_eq_true_eq] at h
  unfold digitVal
  omega

theorem encode_native_intCast (pct : ℤ) :
    encode_native (pct : ℚ) = ((min 100 (max 0 pct)).toNat * 78) / 100 := by
  have h78 : ((MAX_VOLUME : ℕ) : ℚ) = 78 := by norm_num [MAX_VOLUME]
  unfold encode_native
  rw [h78]
  rcases le_or_lt pct 0 with h0 | h0
  · have hq : (pct : ℚ) ≤ 0 := by exact_mod_cast h0
    have hx : (78 : ℚ) * ((pct : ℚ) / 100) ≤ 0 := by nlinarith
    rw [min_eq_left (by linarith : (78 : ℚ) * ((pct : ℚ) / 100) ≤ 78), max_eq_left hx]
    rw [max_eq_left h0, min_eq_right (by omega : (0 : ℤ) ≤ 100)]
    simp
  · rcases le_or_lt 100 pct with h1 | h1
    · have hq : (100 : ℚ) ≤ (pct : ℚ) := by exact_mod_cast h1
      have hx : (78 : ℚ) ≤ 78 * ((pct : ℚ) / 100) := by nlinarith
      rw [min_eq_right hx, max_eq_right (by norm_num : (0 : ℚ) ≤ 78)]
      rw [max_eq_right h0.le, min_eq_left h1]
      rw [show (78 : ℚ) = ((78 : ℤ) : ℚ) by norm_num, Int.floor_intCast]
      decide
    · have hq0 : (0 : ℚ) ≤ (pct : ℚ) := by exact_mod_cast h0.le
      have hq1 : (pct : ℚ) ≤ 100 := by exact_mod_cast h1.le
      have hdivle : (pct : ℚ) / 100 ≤ 1 := by
        rw [div_le_one (by norm_num : (0 : ℚ) < 100)]
        linarith
      have hxle : (78 : ℚ) * ((pct : ℚ) / 100) ≤ 78 := by nlinarith
      have hxge : (0 : ℚ) ≤ 78 * ((pct : ℚ) / 100) := by
        apply mul_nonneg (by norm_num)
        exact div_nonneg hq0 (by norm_num)
      rw [min_eq_left hxle, max_eq_right hxge]
      have hrw : (78 : ℚ) * ((pct : ℚ) / 100) = ((78 * pct : ℤ) : ℚ) / ((100 : ℕ) : ℚ) := by
        push_cast
        ring
      rw [hrw, Rat.floor_intCast_div_natCast]
      rw [max_eq_right h0.le, min_eq_right h1.le]
      obtain ⟨n, rfl⟩ : ∃ n : ℕ, pct = (n : ℤ) := ⟨pct.toNat, (Int.toNat_of_nonneg h0.le).symm⟩
      rw [show ((78 : ℤ) * (n : ℤ)) = ((78 * n : ℕ) : ℤ) by push_cast; ring]
      rw [← Int.natCast_div]
      simp only [Int.toNat_natCast]
      rw [Nat.mul_comm 78 n]

theorem encode_native_natCast (n : ℕ) :
    encode_native (n : ℚ) = (min 100 n * 78) / 100 := by
  have h := encode_native_intCast (n : ℤ)
  rw [show (((n : ℤ)) : ℚ) = (n : ℚ) by push_cast; ring] at h
  rw [h]
  congr 2
  omega

theorem sync_recv_timeout (skip : ℕ) :
    ∀ (input buf : List ℕ),
      (∀ n < input.length, ¬ stops skip (buf ++ input.take (n + 1))) →
      _process_request_recv skip buf input = .error (buf ++ input) := by
  intro input
  induction input with
  | nil =>
      intro buf _
      simp [_process_request_recv]
  | cons c rest ih =>
      intro buf h
      have h0 : ¬ stops skip (buf ++ [c]) := by
        have := h 0 (by simp)
        simpa using this
      unfold _process_request_recv
      rw [if_neg h0]
      have h2 : _process_request_recv skip (buf ++ [c]) rest = .error ((buf ++ [c]) ++ rest) := by
        apply ih
        intro n hn
        have := h (n + 1) (by simp; omega)
        simpa [List.append_assoc] using this
      rw [h2]
      simp

theorem async_recv_timeout (skip : ℕ) :
    ∀ (chunks : List (List ℕ)) (buf : List ℕ),
      (∀ n < chunks.length, ¬ stops skip (buf ++ (chunks.take (n + 1)).flatten)) →
      protocol_send_recv skip buf chunks = .error () := by
  intro chunks
  induction chunks with
  | nil =>
      intro buf _
      simp [protocol_send_recv]
  | cons ch rest ih =>
      intro buf h
      have h0 : ¬ stops skip (buf ++ ch) := by
        have := h 0 (by simp)
        simpa using this
      unfold protocol_send_recv
      rw [if_neg h0]
      apply ih
      intro n hn
      have := h (n + 1) (by simp; omega)
      simpa [List.append_assoc] using this

/-! Claim theorems. -/

/-- Claim C1 (code_bug): the spec requires restore to replay power, mute,
volume, source in order and not to raise merely because the optional
treble, bass and balance fields are absent from the captured ZoneStatus;
the code raises for exactly that reason.  Evaluated at a concrete
captured snapshot: the synchronous restore writes only the power, mute
and volume frames and raises AttributeError, the asynchronous restore
writes the same frames and raises NameError, and the source frame is
never among the frames written. -/
theorem C1_restore_raises :
    restore_zone ⟨3, 0, false, false, 1⟩ =
      (["*Z03OFF\r", "*Z03MTOFF\r", "*Z03VOL00\r"], some PyError.attributeError) ∧
    _format_set_source 3 1 ∉ (restore_zone ⟨3, 0, false, false, 1⟩).1 ∧
    restore_zone_async ⟨3, 0, false, false, 1⟩ =
      (["*Z03OFF\r", "*Z03MTOFF\r", "*Z03VOL00\r"], some PyError.nameError) := by
  have h0 : encode_native (0 : ℚ) = 0 := by
    rw [show (0 : ℚ) = ((0 : ℕ) : ℚ) by norm_num, encode_native_natCast]
    decide
  refine ⟨?_, ?_, ?_⟩ <;>
    simp only [restore_zone, restore_zone_async, _format_set_volume, h0] <;> decide

/-- Claim C2 counterexample: at zone 1 and requested percentage 1 the code
truncates 0.78 to native 0 and emits VOL00, while the claim formula
(native = round of the clamped rescale) yields native 1 and frame VOL01. -/
theorem C2_counterexample :
    _format_set_volume 1 1 = "*Z01VOL00\r" ∧
    spec_volume_frame 1 1 = "*Z01VOL01\r" ∧
    _format_set_volume 1 1 ≠ spec_volume_frame 1 1 := by
  have hc : encode_native (1 : ℚ) = 0 := by
    rw [show (1 : ℚ) = ((1 : ℕ) : ℚ) by norm_num, encode_native_natCast]
    decide
  have hs : spec_volume_native 1 = 1 := by
    unfold spec_volume_native
    rw [show (max 0 (min (1 : ℤ) 100)) = 1 by decide]
    rw [round_eq]
    rw [show ((1 : ℤ) : ℚ) / 100 * 78 + 1 / 2 = ((32 : ℤ) : ℚ) / ((25 : ℕ) : ℚ) by
      push_cast; norm_num]
    rw [Rat.floor_intCast_div_natCast]
    decide
  refine ⟨?_, ?_, ?_⟩ <;>
    simp only [_format_set_volume, spec_volume_frame, hc, hs] <;> decide

/-- Claim C2 (amended): for every zone z in 1..6 and every integer
percentage pct, the encoded volume frame is star Z 0 z VOL nn CR where the
two-digit native value is the truncation floor(clamp(pct, 0, 100) * 78 /
100) computed by int(), not the rounding the claim stated. -/
theorem C2_amended (z : ℕ) (pct : ℤ) (h1 : 1 ≤ z) (h6 : z ≤ 6) :
    _format_set_volume z (pct : ℚ) =
      "*Z0" ++ toString z ++ "VOL" ++ pad2 ((min 100 (max 0 pct)).toNat * 78 / 100) ++ "\r" := by
  rw [_format_set_volume, encode_native_intCast]

/-- Claim C2 witness: the amended statement evaluated at zone 1,
percentage 1. -/
theorem C2_amended_witness :
    (1 : ℕ) ≤ 1 ∧ (1 : ℕ) ≤ 6 ∧ _format_set_volume 1 ((1 : ℤ) : ℚ) = "*Z01VOL00\r" :=
  ⟨le_refl 1, by norm_num,
    (C2_amended 1 1 (le_refl 1) (by norm_num)).trans (by decide)⟩

/-- Claim C3 counterexample: the claim fixes the encoded native value to
round(pct / 100 * 78); at pct = 1 that rounding gives 1, but the code
encodes native 0 (truncation). -/
theorem C3_counterexample :
    encode_native ((1 : ℕ) : ℚ) = 0 ∧ round ((1 : ℚ) / 100 * 78) = 1 ∧ (0 : ℕ) ≠ 1 := by
  refine ⟨by rw [encode_native_natCast]; decide, ?_, by decide⟩
  rw [round_eq]
  rw [show (1 : ℚ) / 100 * 78 + 1 / 2 = ((32 : ℤ) : ℚ) / ((25 : ℕ) : ℚ) by push_cast; norm_num]
  rw [Rat.floor_intCast_div_natCast]
  decide

/-- Claim C3 (amended): for every pct in 0..100, decoding the volume just
encoded from pct (native = floor(pct * 78 / 100) as the code truncates,
recovered = native / 78 * 100) yields a percentage within one native step
(100/78) of pct. -/
theorem C3_amended (pct : ℕ) (h : pct ≤ 100) :
    |(pct : ℚ) - decode_volume_pct (encode_native (pct : ℚ))| ≤ 100 / 78 := by
  rw [encode_native_natCast, min_eq_right h]
  have he : 100 * (pct * 78 / 100) + pct * 78 % 100 = pct * 78 :=
    Nat.div_add_mod (pct * 78) 100
  have hrlt : pct * 78 % 100 < 100 := Nat.mod_lt _ (by norm_num)
  unfold decode_volume_pct
  rw [show ((MAX_VOLUME : ℕ) : ℚ) = 78 by norm_num [MAX_VOLUME]]
  have hq : ((pct * 78 / 100 : ℕ) : ℚ) * 100 = (pct : ℚ) * 78 - ((pct * 78 % 100 : ℕ) : ℚ) := by
    have hc := congrArg (Nat.cast : ℕ → ℚ) he
    push_cast at hc
    linarith
  have hkey : (pct : ℚ) - ((pct * 78 / 100 : ℕ) : ℚ) / 78 * 100 =
      ((pct * 78 % 100 : ℕ) : ℚ) / 78 := by
    field_simp
    linarith
  rw [hkey, abs_of_nonneg (by positivity)]
  have hle : ((pct * 78 % 100 : ℕ) : ℚ) ≤ 100 := by exact_mod_cast hrlt.le
  exact (div_le_div_iff_of_pos_right (by norm_num : (0 : ℚ) < 78)).mpr hle

/-- Claim C4 counterexample: the event-driven receive loop fails with the
same payload-free timeout error whatever the partial bytes were ([65, 66]
against [67, 68]), so the Timeout error raised in that mode cannot carry
the partial bytes received, contradicting the claim that both modes
carry them. -/
theorem C4_counterexample :
    protocol_send_recv 0 [] [[65, 66]] = .error () ∧
    protocol_send_recv 0 [] [[67, 68]] = .error () ∧
    protocol_send_recv 0 [] [[65, 66]] = protocol_send_recv 0 [] [[67, 68]] ∧
    ([65, 66] : List ℕ) ≠ [67, 68] := by decide

/-- Claim C4 (amended): when the terminator condition never holds, the
blocking receive loop fails with a Timeout error carrying exactly the
partial bytes received so far, while the event-driven loop fails with a
bare Timeout error (the partial bytes are only logged, not carried). -/
theorem C4_amended (skip : ℕ) (input : List ℕ) (chunks : List (List ℕ))
    (hs : ∀ n < input.length, ¬ stops skip (input.take (n + 1)))
    (ha : ∀ n < chunks.length, ¬ stops skip ((chunks.take (n + 1)).flatten)) :
    _process_request_recv skip [] input = .error input ∧
    protocol_send_recv skip [] chunks = .error () := by
  constructor
  · have h := sync_recv_timeout skip input [] (by simpa using hs)
    simpa using h
  · exact async_recv_timeout skip chunks [] (by simpa using ha)

/-- Claim C4 witness: the amended statement at skip 0, bytes [65, 66]
arriving singly in the blocking mode and as two chunks in the
event-driven mode. -/
theorem C4_amended_witness :
    (∀ n < ([65, 66] : List ℕ).length, ¬ stops 0 (([65, 66] : List ℕ).take (n + 1))) ∧
    (∀ n < ([[65], [66]] : List (List ℕ)).length,
      ¬ stops 0 ((([[65], [66]] : List (List ℕ)).take (n + 1)).flatten)) ∧
    _process_request_recv 0 [] [65, 66] = .error [65, 66] ∧
    protocol_send_recv 0 [] [[65], [66]] = .error () :=
  ⟨by decide, by decide,
    (C4_amended 0 [65, 66] [[65], [66]] (by decide) (by decide)).1,
    (C4_amended 0 [65, 66] [[65], [66]] (by decide) (by decide)).2⟩

/-- Claim C5 counterexample: the decoder accepts the reply with volume
token 99 and produces volume 99 / 78 * 100, which is greater than 100 and
not an integer (its floor is 126 yet it differs from 126), refuting that
every decoded volume is an integer percentage in 0..100. -/
theorem C5_counterexample :
    from_string ("#Z01PWRON,SRC1,GRP1,VOL-99,POFF\r".data) =
      .ok (some ⟨1, decode_volume_pct 99, true, false, 1⟩) ∧
    (100 : ℚ) < decode_volume_pct 99 ∧
    ⌊decode_volume_pct 99⌋ = 126 ∧ decode_volume_pct 99 ≠ ((126 : ℤ) : ℚ) := by
  refine ⟨?_, ?_, ?_, ?_⟩
  · exact fs_on_num _ '1' '1' '1' '9' '9' (by decide) (by decide) (by decide) (by decide)
  · unfold decode_volume_pct
    rw [show ((MAX_VOLUME : ℕ) : ℚ) = 78 by norm_num [MAX_VOLUME]]
    norm_num
  · unfold decode_volume_pct
    rw [show ((99 : ℕ) : ℚ) / ((MAX_VOLUME : ℕ) : ℚ) * 100 = ((1650 : ℤ) : ℚ) / ((13 : ℕ) : ℚ) by
      norm_num [MAX_VOLUME]]
    rw [Rat.floor_intCast_div_natCast]
    decide
  · unfold decode_volume_pct
    rw [show ((MAX_VOLUME : ℕ) : ℚ) = 78 by norm_num [MAX_VOLUME]]
    norm_num

/-- Claim C5 (amended): every ZoneStatus produced by the decoder has a
nonnegative rational volume of at most 9900 / 78 (about 126.9): zero on
the off and mute paths, and native / 78 * 100 for a numeric token of at
most 99 on the power-on path; it is neither guaranteed to be an integer
nor bounded by 100. -/
theorem C5_amended (s : List Char) (st : ZoneStatus)
    (h : from_string s = .ok (some st)) :
    0 ≤ st.volume ∧ st.volume ≤ 9900 / 78 := by
  cases hOff : searchOff s with
  | some z =>
      rw [fs_off s z hOff] at h
      simp only [Except.ok.injEq, Option.some.injEq] at h
      rw [← h]
      norm_num
  | none =>
      cases hOn : searchOn s with
      | none =>
          rw [fs_none s hOff hOn] at h
          simp at h
      | some gs =>
          obtain ⟨z, src, g, t1, t2⟩ := gs
          by_cases hmt : (t1 = 'M' ∧ t2 = 'T') ∨ (t1 = 'X' ∧ t2 = 'M')
          · rw [fs_on_mute s z src g t1 t2 hOff hOn hmt] at h
            simp only [Except.ok.injEq, Option.some.injEq] at h
            rw [← h]
            norm_num
          · by_cases hdig : isDigitChar t1 = true ∧ isDigitChar t2 = true
            · rw [fs_on_num s z src g t1 t2 hOff hOn hmt hdig] at h
              simp only [Except.ok.injEq, Option.some.injEq] at h
              rw [← h]
              have ha := digitVal_le_nine t1 hdig.1
              have hb := digitVal_le_nine t2 hdig.2
              have hm : 10 * digitVal t1 + digitVal t2 ≤ 99 := by omega
              have hmq : ((10 * digitVal t1 + digitVal t2 : ℕ) : ℚ) ≤ 99 := by
                exact_mod_cast hm
              unfold decode_volume_pct
              rw [show ((MAX_VOLUME : ℕ) : ℚ) = 78 by norm_num [MAX_VOLUME]]
              constructor
              · positivity
              · rw [div_mul_eq_mul_div]
                rw [show (9900 : ℚ) / 78 = 99 * 100 / 78 by norm_num]
                exact (div_le_div_iff_of_pos_right (by norm_num : (0 : ℚ) < 78)).mpr
                  (by nlinarith)
            · rw [fs_on_bad s z src g t1 t2 hOff hOn hmt hdig] at h
              simp at h

/-- Claim C5 witness: the amended bound evaluated on the decoded reply
with volume token 39. -/
theorem C5_amended_witness :
    from_string ("#Z02PWRON,SRC4,GRP1,VOL-39,POFF\r".data) =
      .ok (some ⟨2, decode_volume_pct 39, true, false, 4⟩) ∧
    0 ≤ (⟨2, decode_volume_pct 39, true, false, 4⟩ : ZoneStatus).volume ∧
    (⟨2, decode_volume_pct 39, true, false, 4⟩ : ZoneStatus).volume ≤ 9900 / 78 := by
  have hfs : from_string ("#Z02PWRON,SRC4,GRP1,VOL-39,POFF\r".data) =
      .ok (some ⟨2, decode_volume_pct 39, true, false, 4⟩) :=
    fs_on_num _ '2' '4' '1' '3' '9' (by decide) (by decide) (by decide) (by decide)
  exact ⟨hfs, (C5_amended _ _ hfs).1, (C5_amended _ _ hfs).2⟩

/-- Claim C6: decoding any string in which the power-off pattern matches
(capturing zone digit z) yields a ZoneStatus with the reported zone and
power false, mute false, volume 0, source 1. -/
theorem C6_off_report (s : List Char) (z : Char) (h : searchOff s = some z) :
    from_string s = .ok (some ⟨digitVal z, 0, false, false, 1⟩) :=
  fs_off s z h

/-- Claim C6 witness: the off report for zone 3. -/
theorem C6_off_report_witness :
    searchOff "#Z03PWROFF\r".data = some '3' ∧
    from_string "#Z03PWROFF\r".data = .ok (some ⟨3, 0, false, false, 1⟩) :=
  ⟨by decide, C6_off_report _ '3' (by decide)⟩

/-- Claim C7: decoding any power-on report whose two-character volume
token is a mute sentinel (MT or XM) yields mute true, volume 0, power
true, and the reported zone and source digits. -/
theorem C7_mute_sentinel (s : List Char) (z src g t1 t2 : Char)
    (hoff : searchOff s = none)
    (hon : searchOn s = some (z, src, g, t1, t2))
    (hmt : (t1 = 'M' ∧ t2 = 'T') ∨ (t1 = 'X' ∧ t2 = 'M')) :
    from_string s = .ok (some ⟨digitVal z, 0, true, true, digitVal src⟩) :=
  fs_on_mute s z src g t1 t2 hoff hon hmt

/-- Claim C7 witness: the MT sentinel report for zone 1, source 1. -/
theorem C7_mute_sentinel_witness :
    searchOff "#Z01PWRON,SRC1,GRP1,VOL-MT,POFF\r".data = none ∧
    searchOn "#Z01PWRON,SRC1,GRP1,VOL-MT,POFF\r".data = some ('1', '1', '1', 'M', 'T') ∧
    from_string "#Z01PWRON,SRC1,GRP1,VOL-MT,POFF\r".data = .ok (some ⟨1, 0, true, true, 1⟩) :=
  ⟨by decide, by decide,
    C7_mute_sentinel _ '1' '1' '1' 'M' 'T' (by decide) (by decide) (Or.inl ⟨rfl, rfl⟩)⟩

/-- Claim C8: for every input in which neither reply pattern matches,
decoding returns absence (None), not an error. -/
theorem C8_no_match (s : List Char)
    (hoff : searchOff s = none) (hon : searchOn s = none) :
    from_string s = .ok none :=
  fs_none s hoff hon

/-- Claim C8 witness: an unrecognized string decodes to absence. -/
theorem C8_no_match_witness :
    searchOff "hello".data = none ∧ searchOn "hello".data = none ∧
    from_string "hello".data = .ok none :=
  ⟨by decide, by decide, C8_no_match _ (by decide) (by decide)⟩

/-- Claim C10 counterexample: from_string raises ValueError (is not
total) on a power-on reply whose volume token AB is neither a mute
sentinel nor decimal digits, because int() rejects it. -/
theorem C10_counterexample :
    from_string "#Z01PWRON,SRC1,GRP1,VOL-AB,POFF\r".data = .error PyError.valueError := by
  decide

/-- Claim C10 (amended): from_string returns a ZoneStatus or absence for
every input except exactly those matching the power-on pattern with a
volume token that is neither a mute sentinel nor two decimal digits; on
those it raises ValueError. -/
theorem C10_amended (s : List Char) :
    from_string s = .error PyError.valueError ↔
      ∃ z src g t1 t2, searchOff s = none ∧ searchOn s = some (z, src, g, t1, t2) ∧
        ¬ ((t1 = 'M' ∧ t2 = 'T') ∨ (t1 = 'X' ∧ t2 = 'M')) ∧
        ¬ (isDigitChar t1 = true ∧ isDigitChar t2 = true) := by
  constructor
  · intro h
    cases hOff : searchOff s with
    | some z =>
        rw [fs_off s z hOff] at h
        simp at h
    | none =>
        cases hOn : searchOn s with
        | none =>
            rw [fs_none s hOff hOn] at h
            simp at h
        | some gs =>
            obtain ⟨z, src, g, t1, t2⟩ := gs
            by_cases hmt : (t1 = 'M' ∧ t2 = 'T') ∨ (t1 = 'X' ∧ t2 = 'M')
            · rw [fs_on_mute s z src g t1 t2 hOff hOn hmt] at h
              simp at h
            · by_cases hdig : isDigitChar t1 = true ∧ isDigitChar t2 = true
              · rw [fs_on_num s z src g t1 t2 hOff hOn hmt hdig] at h
                simp at h
              · exact ⟨z, src, g, t1, t2, rfl, rfl, hmt, hdig⟩
  · rintro ⟨z, src, g, t1, t2, hOff, hOn, hmt, hdig⟩
    exact fs_on_bad s z src g t1 t2 hOff hOn hmt hdig

/-- Claim C3 witness: the amended round-trip bound evaluated at pct 50
(encoded native 39, recovered exactly 50). -/
theorem C3_amended_witness :
    (50 : ℕ) ≤ 100 ∧
    |((50 : ℕ) : ℚ) - decode_volume_pct (encode_native ((50 : ℕ) : ℚ))| ≤ 100 / 78 :=
  ⟨by norm_num, C3_amended 50 (by norm_num)⟩
